import Mathlib

/-!
Formal model of the subcontractor research pipeline
(discovery → extraction → license verification → project-history enrichment →
scoring/ranking), embedded shallowly from the Python sources.

Conventions used throughout:
* Python floats are modelled as rationals (`ℚ`), Python ints as `ℤ` or `ℚ`
  where they flow into float arithmetic.
* Python dict-shaped profiles are modelled as structures; a field whose
  *presence* matters downstream is an `Option`, a string field whose only
  observed distinction is truthiness uses `""` for "missing or empty".
* Network and library effects (HTTP fetches, HTML parsing, fuzzy matching,
  date parsing, wall-clock time) are explicit parameters, so every stage is a
  pure function of its inputs plus those oracles.
-/

/-! ## Scorer (src/core/scoring.py) -/

/-- `ScoringConfig` (scoring.py): parameters the scorer is constructed with.
`target_city`/`target_state` are lowercased at `__init__` time; we lowercase at
use sites, which is equivalent. -/
structure ScoringConfig where
  min_bond : ℚ
  target_city : String
  target_state : String

/-- `ScoredCandidate` (scoring.py): the dataclass `_dict_to_candidate` builds
from the input dict, with the dataclass defaults. Fields not read by any
scoring component are omitted. -/
structure ScoredCandidate where
  name : String := "Unknown"
  city : Option String := none
  state : Option String := none
  lic_active : Bool := false
  bond_amount : ℚ := 0
  tx_projects_past_5yrs : ℚ := 0
  distance_miles : Option ℚ := none
  project_quality_score : ℚ := 0.5
  days_until_expiry : ℤ := 365
  positive_reviews : ℤ := 0
  years_in_business : ℤ := 0
  awards : ℤ := 0
  union_member : Bool := false
deriving DecidableEq

/-- `SubcontractorScorer._experience_score`: `min(1.0, projects*0.2)` scaled by
`0.7 + 0.3*quality`; `project_quality_score or 0.5` maps the falsy `0.0` (and
`None`) to `0.5`. -/
def experienceScore (c : ScoredCandidate) : ℚ :=
  let base_projects := c.tx_projects_past_5yrs
  let project_quality := if c.project_quality_score = 0 then 0.5 else c.project_quality_score
  let raw_score := min 1 (base_projects * 0.2)
  raw_score * (0.7 + 0.3 * project_quality)

/-- `SubcontractorScorer._license_score`: `0.0` when inactive; otherwise
`0.8*min(1.0, d/365) + 0.2` where `d` is `days_until_expiry or 365`, i.e. the
falsy value `0` falls back to `365`. -/
def licenseScore (c : ScoredCandidate) : ℚ :=
  if !c.lic_active then 0
  else
    let days_until_expiry : ℚ := if c.days_until_expiry = 0 then 365 else (c.days_until_expiry : ℚ)
    0.8 * min 1 (days_until_expiry / 365) + 0.2

/-- `SubcontractorScorer._bonding_score`. (For `min_bond = 0` the Python code
would raise `ZeroDivisionError`, caught by `_process_candidate`; rational
division by zero yields `0/0 = 0` here and no claim depends on that case.) -/
def bondingScore (cfg : ScoringConfig) (c : ScoredCandidate) : ℚ :=
  let bond_amount := c.bond_amount
  if bond_amount < cfg.min_bond * 0.5 then 0
  else min 1 (max 0 ((bond_amount - cfg.min_bond * 0.5) / (cfg.min_bond * 1.5)))

/-- `SubcontractorScorer._geographic_score`: `candidate.distance_miles or 100`
maps both `None` and the falsy `0` to `100`. -/
def geographicScore (cfg : ScoringConfig) (c : ScoredCandidate) : ℚ :=
  let city := (c.city.getD "").toLower
  let state := (c.state.getD "").toLower
  if city = cfg.target_city.toLower then 1
  else if state = cfg.target_state.toLower then
    let distance_miles : ℚ :=
      match c.distance_miles with
      | none => 100
      | some d => if d = 0 then 100 else d
    max 0.3 (1 - distance_miles / 300)
  else 0

/-- `SubcontractorScorer._reputation_score`. -/
def reputationScore (c : ScoredCandidate) : ℚ :=
  let s1 : ℚ := if c.positive_reviews > 5 then 0.3 else 0
  let s2 : ℚ := if c.years_in_business > 5 then 0.2 else 0
  let s3 : ℚ := if c.awards > 0 then 0.2 else 0
  let s4 : ℚ := if c.union_member then 0.3 else 0
  min 1 (s1 + s2 + s3 + s4)

/-- `ScoreBreakdown` (scoring.py). -/
structure ScoreBreakdown where
  experience : ℚ
  license : ℚ
  bonding : ℚ
  geography : ℚ
  reputation : ℚ
deriving DecidableEq

/-- `SubcontractorScorer._calculate_score_breakdown` — the body of the
decorated function. (At runtime the `lru_cache` wrapper raises before this
body runs; see `processCandidateRuntime`.) -/
def calculateScoreBreakdown (cfg : ScoringConfig) (c : ScoredCandidate) : ScoreBreakdown :=
  { experience := experienceScore c
    license := licenseScore c
    bonding := bondingScore cfg c
    geography := geographicScore cfg c
    reputation := reputationScore c }

/-- `SubcontractorScorer._compute_total_score`: weighted sum over the
insertion-ordered `scoring_weights` dict. -/
def computeTotalScore (b : ScoreBreakdown) : ℚ :=
  0.30 * b.experience * 100 + 0.25 * b.license * 100 + 0.20 * b.bonding * 100
    + 0.15 * b.geography * 100 + 0.10 * b.reputation * 100

/-- Python `round(x, 2)`: round to 2 decimal places, ties to even. -/
def pyRound2 (q : ℚ) : ℚ :=
  let y := q * 100
  let fl := ⌊y⌋
  let r := y - fl
  let n : ℤ := if r < 1/2 then fl else if 1/2 < r then fl + 1 else if fl % 2 = 0 then fl else fl + 1
  (n : ℚ) / 100

/-- The dict `_process_candidate` returns: `asdict(candidate)` plus the
`score`, `score_breakdown`, `score_version` and `last_checked` keys. -/
structure ScoredResult where
  candidate : ScoredCandidate
  score : ℚ
  score_breakdown : ScoreBreakdown
  score_version : String
  last_checked : String
deriving DecidableEq

/-- The body of `SubcontractorScorer._process_candidate` as written:
build the candidate, compute the breakdown and total, and return the result
dict with the score rounded to 2 decimals and `last_checked` set to the
current wall-clock time (`now`). -/
def processCandidate (cfg : ScoringConfig) (now : String) (c : ScoredCandidate) : ScoredResult :=
  let b := calculateScoreBreakdown cfg c
  { candidate := c
    score := pyRound2 (computeTotalScore b)
    score_breakdown := b
    score_version := "enhanced"
    last_checked := now }

/-- Runtime behaviour of `SubcontractorScorer._process_candidate`: the call
`self._calculate_score_breakdown(candidate_obj)` goes through the
`@lru_cache` wrapper, which hashes its arguments. `ScoredCandidate` is a
non-frozen dataclass with `eq=True`, so Python sets its `__hash__` to `None`
and the hash attempt raises `TypeError: unhashable type` for every candidate.
The surrounding `except Exception` block then returns `None`. Hence at
runtime `_process_candidate` returns `None` on every input. -/
def processCandidateRuntime (_cfg : ScoringConfig) (_now : String) (_c : ScoredCandidate) :
    Option ScoredResult :=
  none

/-- Python tuple comparison `≤` on equal-length tuples of numbers,
component-wise lexicographic. -/
def pyListLE : List ℚ → List ℚ → Bool
  | [], _ => true
  | _ :: _, [] => false
  | a :: as, b :: bs => if a < b then true else if b < a then false else pyListLE as bs

/-- The sort key of `SubcontractorScorer._rank_candidates`:
`(-score, -experience, -license, -bond_amount, -years_in_business)`. -/
def rankKey (c : ScoredCandidate) (score : ℚ) (b : ScoreBreakdown) : List ℚ :=
  [-score, -b.experience, -b.license, -c.bond_amount, -(c.years_in_business : ℚ)]

/-- The part of a scored result that the ranking key reads (everything except
`score_version`/`last_checked`). -/
def scoreCore (r : ScoredResult) : ScoredCandidate × ℚ × ScoreBreakdown :=
  (r.candidate, r.score, r.score_breakdown)

/-- Key comparison on the score-relevant core. -/
def coreLE (x y : ScoredCandidate × ℚ × ScoreBreakdown) : Bool :=
  pyListLE (rankKey x.1 x.2.1 x.2.2) (rankKey y.1 y.2.1 y.2.2)

/-- The comparison `sorted` uses in `_rank_candidates` (ascending on the
negated key tuple). -/
def rankLE (x y : ScoredResult) : Bool := coreLE (scoreCore x) (scoreCore y)

/-- `SubcontractorScorer._rank_candidates`: Python `sorted` is a stable merge
sort, modelled by `List.mergeSort` (also stable). -/
def rankCandidates (l : List ScoredResult) : List ScoredResult := l.mergeSort rankLE

/-- `SubcontractorScorer.calculate_scores` with `_process_candidate` taken as
written (its body): score every candidate (`asyncio.gather` preserves task
order), drop `None` results (none arise on this path), rank. -/
def calculateScores (cfg : ScoringConfig) (now : String) (cs : List ScoredCandidate) :
    List ScoredResult :=
  rankCandidates (cs.map (processCandidate cfg now))

/-- `SubcontractorScorer.calculate_scores` under the actual runtime semantics
of `_process_candidate` (see `processCandidateRuntime`): every per-candidate
result is `None`, filtered out before ranking. -/
def calculateScoresRuntime (cfg : ScoringConfig) (now : String) (cs : List ScoredCandidate) :
    List ScoredResult :=
  rankCandidates (cs.filterMap (processCandidateRuntime cfg now))

/-! ### Order-theoretic facts about the ranking comparison -/

theorem pyListLE_total (a b : List ℚ) : pyListLE a b || pyListLE b a := by
  induction a generalizing b with
  | nil => simp [pyListLE]
  | cons x xs ih =>
    cases b with
    | nil => simp [pyListLE]
    | cons y ys =>
      by_cases h1 : x < y
      · simp [pyListLE, h1]
      · by_cases h2 : y < x
        · simp [pyListLE, h1, h2]
        · simpa [pyListLE, h1, h2] using ih ys

theorem pyListLE_trans (a b c : List ℚ) :
    pyListLE a b → pyListLE b c → pyListLE a c := by
  induction a generalizing b c with
  | nil => simp [pyListLE]
  | cons x xs ih =>
    cases b with
    | nil => simp [pyListLE]
    | cons y ys =>
      cases c with
      | nil => simp [pyListLE]
      | cons z zs =>
        by_cases hxy : x < y
        · by_cases hyz : y < z
          · simp [pyListLE, hxy, hyz, lt_trans hxy hyz]
          · by_cases hzy : z < y
            · intro _ h2
              simp [pyListLE, hyz, hzy] at h2
            · have heq : y = z := le_antisymm (not_lt.1 hzy) (not_lt.1 hyz)
              subst heq
              simp [pyListLE, hxy]
        · by_cases hyx : y < x
          · simp [pyListLE, hxy, hyx]
          · have heq : x = y := le_antisymm (not_lt.1 hyx) (not_lt.1 hxy)
            subst heq
            by_cases hyz : x < z
            · simp [pyListLE, hxy, hyz]
            · by_cases hzy : z < x
              · intro _ h2
                simp [pyListLE, hyz, hzy] at h2
              · have heq2 : x = z := le_antisymm (not_lt.1 hzy) (not_lt.1 hyz)
                subst heq2
                simp only [pyListLE, lt_irrefl, if_false]
                exact ih ys zs

theorem pyListLE_cons₂ (a : ℚ) (as bs : List ℚ) :
    pyListLE (a :: as) (a :: bs) = pyListLE as bs := by
  simp [pyListLE]

theorem pyListLE_head_le {a b : ℚ} {as bs : List ℚ}
    (h : pyListLE (a :: as) (b :: bs)) : a ≤ b := by
  by_cases h1 : a < b
  · exact le_of_lt h1
  · by_cases h2 : b < a
    · simp [pyListLE, h1, h2] at h
    · exact not_lt.1 h2

theorem rankLE_trans (a b c : ScoredResult) : rankLE a b → rankLE b c → rankLE a c :=
  pyListLE_trans _ _ _

theorem rankLE_total (a b : ScoredResult) : rankLE a b || rankLE b a :=
  pyListLE_total _ _

/-! ### Concrete scorer inputs used by evaluations -/

/-- A representative scoring configuration (`min_bond=100000`, Austin, TX). -/
def cfgAustin : ScoringConfig :=
  { min_bond := 100000, target_city := "Austin", target_state := "TX" }

/-- A plain candidate dict containing only a name. -/
def acmeCandidate : ScoredCandidate := { name := "Acme Electrical" }

/-- Scored result with total 50, experience 0, license 1, bond 100. -/
def tieHighBond : ScoredResult :=
  { candidate := { bond_amount := 100 }
    score := 50
    score_breakdown := { experience := 0, license := 1, bonding := 0, geography := 0, reputation := 0 }
    score_version := "enhanced"
    last_checked := "t" }

/-- Scored result with total 50, experience 1, license 0, bond 0. -/
def tieLowBond : ScoredResult :=
  { candidate := { bond_amount := 0 }
    score := 50
    score_breakdown := { experience := 1, license := 0, bonding := 0, geography := 0, reputation := 0 }
    score_version := "enhanced"
    last_checked := "t" }

/-- An active-license candidate whose `days_until_expiry` is `0`. -/
def activeExpiryZero : ScoredCandidate := { lic_active := true, days_until_expiry := 0 }

/-- An active-license candidate whose `days_until_expiry` is `1`. -/
def activeExpiryOne : ScoredCandidate := { lic_active := true, days_until_expiry := 1 }

/-- C1. The claim reads: for every input list of profiles, `calculate_scores`
returns a scored version of every input profile, none dropped, ranked. The
code violates this: `_process_candidate` raises `TypeError` on every candidate
(unhashable `ScoredCandidate` used as an `lru_cache` key, see
`processCandidateRuntime`), so every candidate is filtered out and the result
is empty for every non-empty input. Evaluated here at the one-candidate input
`[acmeCandidate]`: the output is `[]` although the input has length 1. -/
theorem calculate_scores_drops_every_candidate :
    calculateScoresRuntime cfgAustin "2025-01-01T00:00:00" [acmeCandidate] = []
      ∧ ([acmeCandidate] : List ScoredCandidate).length = 1 := by
  constructor
  · simp [calculateScoresRuntime, processCandidateRuntime, rankCandidates]
  · rfl

/-- C5 counterexample. Two scored profiles with equal total score (50) but
different bond amounts (100 vs 0): because the tie-break chain consults the
experience component before the bond amount, `_rank_candidates` places the
bond-0 profile (higher experience) first, contradicting the claim that the
higher-bond profile always precedes on equal total score. -/
theorem rank_equal_score_bond_counterexample :
    tieHighBond.score = tieLowBond.score
      ∧ tieLowBond.candidate.bond_amount < tieHighBond.candidate.bond_amount
      ∧ (rankCandidates [tieHighBond, tieLowBond]).map (fun r => r.candidate.bond_amount)
          = [0, 100] := by
  refine ⟨rfl, by norm_num [tieHighBond, tieLowBond], ?_⟩
  simp [rankCandidates, List.mergeSort, List.splitInTwo, List.splitAt_eq, List.merge,
    rankLE, coreLE, scoreCore, rankKey, pyListLE, tieHighBond, tieLowBond]

/-- C5 amended. `_rank_candidates` sorts by descending score, then descending
experience component, then descending license component, then descending bond
amount (then years in business): whenever two profiles in the ranked output tie
on score, experience and license, the one with the larger bond amount comes
first — i.e. no profile is followed by a tied profile with a strictly larger
bond. -/
theorem rank_tiebreak_bond_after_components (l : List ScoredResult) :
    (rankCandidates l).Pairwise (fun x y =>
      x.score = y.score →
      x.score_breakdown.experience = y.score_breakdown.experience →
      x.score_breakdown.license = y.score_breakdown.license →
      y.candidate.bond_amount ≤ x.candidate.bond_amount) := by
  have h := List.sorted_mergeSort rankLE_trans rankLE_total l
  refine h.imp ?_
  intro x y hxy hs he hl
  have hxy2 : pyListLE (rankKey x.candidate x.score x.score_breakdown)
      (rankKey y.candidate y.score y.score_breakdown) := hxy
  rw [rankKey, rankKey, hs, he, hl, pyListLE_cons₂, pyListLE_cons₂, pyListLE_cons₂] at hxy2
  have := pyListLE_head_le hxy2
  linarith [neg_le_neg_iff.1 this]

/-- C8 counterexample. For the active candidate with `days_until_expiry = 0`
the code returns `1` (the falsy `0` falls back to the default `365`), while the
claimed formula `0.8*min(1, 0/365)+0.2` gives `0.2`; moreover the score is not
monotone non-decreasing in `days_until_expiry`, since it drops from `1` at
`days_until_expiry = 0` to `0.8/365 + 0.2` at `days_until_expiry = 1`. -/
theorem license_score_day_zero_counterexample :
    licenseScore activeExpiryZero = 1
      ∧ licenseScore activeExpiryZero ≠
          0.8 * min 1 ((activeExpiryZero.days_until_expiry : ℚ) / 365) + 0.2
      ∧ licenseScore activeExpiryOne < licenseScore activeExpiryZero := by
  norm_num [licenseScore, activeExpiryZero, activeExpiryOne]

/-- C8 amended. The license component is `0` whenever `lic_active` is false;
for active profiles with `days_until_expiry ≠ 0` it equals
`0.8*min(1, days_until_expiry/365) + 0.2` (`days_until_expiry = 0` falls back
to the default `365`, yielding `1`), and it is monotone non-decreasing in
`days_until_expiry` on the range `days_until_expiry ≥ 1`. -/
theorem license_score_formula_and_monotone (c d : ScoredCandidate) :
    (c.lic_active = false → licenseScore c = 0)
      ∧ (c.lic_active = true → c.days_until_expiry ≠ 0 →
          licenseScore c = 0.8 * min 1 ((c.days_until_expiry : ℚ) / 365) + 0.2)
      ∧ (c.lic_active = true → d.lic_active = true →
          1 ≤ c.days_until_expiry → c.days_until_expiry ≤ d.days_until_expiry →
          licenseScore c ≤ licenseScore d) := by
  refine ⟨fun h => by simp [licenseScore, h], fun h h0 => by simp [licenseScore, h, h0], ?_⟩
  intro hc hd h1 hle
  have hc0 : c.days_until_expiry ≠ 0 := by omega
  have hd0 : d.days_until_expiry ≠ 0 := by omega
  simp only [licenseScore, hc, hd, Bool.not_true, Bool.false_eq_true, if_false, hc0, hd0]
  have hq : (c.days_until_expiry : ℚ) ≤ (d.days_until_expiry : ℚ) := by exact_mod_cast hle
  gcongr

/-- C8 witness: the amended statement evaluated at the inactive default
candidate (`licenseScore = 0`), at `activeExpiryOne` (formula value), and at
the monotone pair `activeExpiryOne ≤` the default-365 active candidate. -/
theorem license_score_formula_and_monotone_witness :
    licenseScore { lic_active := false } = 0
      ∧ licenseScore activeExpiryOne =
          0.8 * min 1 ((activeExpiryOne.days_until_expiry : ℚ) / 365) + 0.2
      ∧ licenseScore activeExpiryOne ≤ licenseScore { lic_active := true } := by
  refine ⟨(license_score_formula_and_monotone { lic_active := false } activeExpiryOne).1 rfl,
    (license_score_formula_and_monotone activeExpiryOne activeExpiryOne).2.1 rfl (by decide), ?_⟩
  exact (license_score_formula_and_monotone activeExpiryOne { lic_active := true }).2.2
    rfl rfl (by decide) (by decide)

/-- C9. Scoring is deterministic: the only run-to-run varying input of
`_process_candidate` is the wall clock (`datetime.now`, stored in
`last_checked`); `asyncio.gather` preserves task order, the component scores
and `sorted` are pure. Two runs over the same candidates and config at any two
timestamps agree on every output's candidate data, `score` and
`score_breakdown`, and on the ranking order (elementwise equality of the
mapped output lists). -/
theorem calculate_scores_deterministic (cfg : ScoringConfig) (t1 t2 : String)
    (cs : List ScoredCandidate) :
    (calculateScores cfg t1 cs).map scoreCore = (calculateScores cfg t2 cs).map scoreCore := by
  unfold calculateScores rankCandidates
  rw [@List.map_mergeSort _ _ rankLE coreLE scoreCore _ (fun a _ b _ => rfl),
    @List.map_mergeSort _ _ rankLE coreLE scoreCore _ (fun a _ b _ => rfl),
    List.map_map, List.map_map]
  have h : scoreCore ∘ processCandidate cfg t1 = scoreCore ∘ processCandidate cfg t2 :=
    funext fun c => rfl
  rw [h]

/-! ## Discovery (src/core/discovery.py) -/

/-- Python `str.strip()`: drop leading and trailing whitespace. (Implemented
on the character list so that it reduces inside the kernel; `String.trim` is
extensionally the same but defined by well-founded recursion.) -/
def pyStrip (s : String) : String :=
  ⟨((s.data.dropWhile Char.isWhitespace).reverse.dropWhile Char.isWhitespace).reverse⟩

/-- Python `s.startswith(p)`. -/
def strStarts (s p : String) : Bool := p.data.isPrefixOf s.data

/-- Python `p in s` (substring containment). -/
def strContains (s p : String) : Bool :=
  (List.range (s.data.length + 1)).any (fun i => p.data.isPrefixOf (s.data.drop i))

/-- Python `sep.join(filter(None, parts))`: join the non-empty parts. -/
def joinTruthy (sep : String) (parts : List String) : String :=
  String.intercalate sep (parts.filter (fun s => s ≠ ""))

/-- `DiscoveryService._build_query`: trade/city/state components, then an
unconditional OR-group of license terms and an OR-group of project terms
(caller keywords, defaulting to `["commercial"]`), with a TDLR hint appended
when the state is TX. -/
def buildQuery (trade city state : String) (keywords : List String) : String :=
  let components := [if trade ≠ "" then trade ++ " contractor" else "", city, state]
  let license_terms := ["licensed", "certified", "registered"]
  let project_terms := if keywords ≠ [] then keywords else ["commercial"]
  let query := joinTruthy " " [joinTruthy " " components,
    "(" ++ String.intercalate " OR " license_terms ++ ")",
    "(" ++ String.intercalate " OR " project_terms ++ ")"]
  let query := if state ≠ "" && state.toUpper == "TX"
    then query ++ " (tdlr OR \x27texas department of licensing\x27)" else query
  pyStrip query

/-- A raw search-engine result (`{url, title, description}`). -/
structure SearchHit where
  url : String
  title : String
  description : String
deriving DecidableEq

/-- A discovery candidate (`{url, title, description}` dict appended to
`candidates`). -/
structure CandidateLink where
  url : String
  title : String
  description : String
deriving DecidableEq

/-- The inner result loop of `find_subcontractors`: append each hit whose URL
is non-empty, starts with `"http"` and has not been seen, tracking seen URLs. -/
def addHits (acc : List CandidateLink × List String) (hits : List SearchHit) :
    List CandidateLink × List String :=
  hits.foldl (fun acc r =>
    if r.url ≠ "" && strStarts r.url "http" && !(acc.2.contains r.url) then
      (acc.1 ++ [{ url := r.url, title := r.title, description := r.description }],
        acc.2 ++ [r.url])
    else acc) acc

/-- `DiscoveryService.find_subcontractors`. Each search backend is modelled as
a function from the query to either an exception (`.error ()`, swallowed by
the `try/except` around the engine call) or its parsed result list; backends
are consulted in order until `min_candidates = 20` candidates accumulate, and
the result is truncated to 20. -/
def findSubcontractors (engines : List (String → Except Unit (List SearchHit)))
    (trade city state : String) (keywords : List String) : List CandidateLink :=
  let query := buildQuery trade city state keywords
  if query = "" then []
  else
    let res := engines.foldl (fun (acc : List CandidateLink × List String) engine =>
      if acc.1.length ≥ 20 then acc
      else
        match engine query with
        | .error _ => acc
        | .ok hits => addHits acc hits) ([], [])
    res.1.take 20

/-- C2. The claim reads: a request with blank `trade`, `city` and `state`
returns an empty list immediately, with no search-backend call. The code
violates this: `_build_query` appends the license-terms and project-terms
OR-groups unconditionally, so even the all-blank request yields the non-empty
query `"(licensed OR certified OR registered) (commercial)"`, the
empty-query guard never fires, and the search engines are consulted — here a
backend returning one hit for any query makes the all-blank request return
that hit rather than the empty list. -/
theorem blank_request_still_searches :
    buildQuery "" "" "" [] = "(licensed OR certified OR registered) (commercial)"
      ∧ findSubcontractors
          [fun _ => .ok [{ url := "http://example.com", title := "", description := "" }]]
          "" "" "" []
        = [{ url := "http://example.com", title := "", description := "" }] := by
  constructor <;> rfl

/-! ## Pipeline profile record

The dict-shaped `BusinessProfile` threaded through extraction, verification,
history and formatting. `Option` marks fields whose key-presence matters
downstream; plain `String`/`List` fields use `""`/`[]` for "missing", which is
indistinguishable from present-but-falsy at every use site in the source. -/

structure Profile where
  business_name : String := ""
  website : String := ""
  name : String := ""
  source_url : String := ""
  email : Option String := none
  hq_address : Option String := none
  phone : Option String := none
  licensing_text : String := ""
  license : String := ""
  bond_amount : Option ℤ := none
  projects : List String := []
  union_status : Option String := none
  evidence_text : String := ""
  raw_text : String := ""
  last_checked : String := ""
  city : String := ""
  state : String := ""
  lic_active : Option Bool := none
  lic_number : Option String := none
  lic_match_score : Option ℤ := none
  lic_matched_name : Option String := none
  lic_expiry_date : Option String := none
  tx_projects_past_5yrs : Option ℤ := none
  tx_older_projects : Option ℤ := none
  project_evidence : List String := []
deriving DecidableEq

/-! ## Extractor (src/core/extractor.py) -/

/-- `urllib.parse.urlparse(url).netloc` for the URL shapes this pipeline
passes around: the text after the first `"://"` up to the next `/`, `?` or
`#`; empty when the URL has no authority part. -/
def urlNetloc (url : String) : String :=
  match (List.range (url.data.length + 1)).find?
      (fun i => "://".data.isPrefixOf (url.data.drop i)) with
  | none => ""
  | some i => ⟨(url.data.drop (i + 3)).takeWhile (fun c => !(c == '/' || c == '?' || c == '#'))⟩

/-- The TLD alternatives of `re.sub(r"\.(com|org|net|io|co|us|gov)$", ...)`. -/
def tldList : List String := ["com", "org", "net", "io", "co", "us", "gov"]

/-- Strip one trailing `.tld` drawn from `tlds` (the dollar-anchored regex
matches at most once, and at most one alternative can be a suffix). -/
def stripTld (tlds : List String) (s : String) : String :=
  match tlds.find? (fun t => ("." ++ t).data.isSuffixOf s.data) with
  | some t => ⟨s.data.take (s.data.length - (t.data.length + 1))⟩
  | none => s

/-- Strip one leading `www.` (`re.sub(r"^www\.", "", ...)`). -/
def stripWww (s : String) : String :=
  if "www.".data.isPrefixOf s.data then ⟨s.data.drop 4⟩ else s

/-- Python `str.title()`: uppercase every alphabetic character that follows a
non-alphabetic one, lowercase the other alphabetic characters. -/
def pyTitle (s : String) : String :=
  let step := fun (acc : List Char × Bool) (c : Char) =>
    if c.isAlpha then ((if acc.2 then c.toLower else c.toUpper) :: acc.1, true)
    else (c :: acc.1, false)
  ⟨((s.data.foldl step ([], false)).1).reverse⟩

/-- `SubcontractorExtractor._extract_domain_name`: netloc, strip `www.` and a
common TLD, dashes/underscores to spaces, title-case. -/
def extractDomainName (url : String) : String :=
  let domain := urlNetloc url
  let name := stripTld tldList (stripWww domain)
  let name : String := ⟨name.data.map (fun c => if c == '-' || c == '_' then ' ' else c)⟩
  pyTitle name

/-- Python `str.split()` (split on whitespace runs, no empty words). -/
def pyWords (s : String) : List String :=
  let step := fun c (acc : List (List Char)) =>
    if c.isWhitespace then [] :: acc
    else
      match acc with
      | [] => [[c]]
      | w :: ws => (c :: w) :: ws
  ((s.data.foldr step []).filter (fun w => w ≠ [])).map (fun l => ⟨l⟩)

/-- `SubcontractorExtractor._extract_location_from_address`: best-effort
city/state from the comma-separated address tail. -/
def extractLocationFromAddress (p : Profile) (address : String) : Profile :=
  let address_parts := address.splitOn ","
  if address_parts.length ≥ 2 then
    if address_parts.length ≥ 3 then
      let p1 := { p with city := pyStrip (address_parts.getD (address_parts.length - 2) "") }
      match pyWords (pyStrip (address_parts.getD (address_parts.length - 1) "")) with
      | [] => p1
      | w :: _ => { p1 with state := pyStrip w }
    else
      let p1 := { p with city := pyStrip (address_parts.getD 0 "") }
      match pyWords (pyStrip (address_parts.getD 1 "")) with
      | [] => p1
      | w :: _ => { p1 with state := pyStrip w }
  else p

/-- `SubcontractorExtractor._create_minimal_profile`: name derived from the
domain only, all other fields null/empty. -/
def minimalProfile (now url : String) : Profile :=
  { business_name := extractDomainName url
    website := url
    hq_address := none
    phone := none
    licensing_text := ""
    bond_amount := none
    projects := []
    union_status := none
    evidence_text := ""
    last_checked := now }

/-- What `_process_url` extracts from a successfully fetched page (the pure
HTML/regex field extraction, abstracted as a fetch-oracle payload). -/
structure PageData where
  business_name : String
  email : Option String := none
  hq_address : Option String := none
  phone : Option String := none
  licensing_text : String := ""
  bond_amount : Option ℤ := none
  projects : List String := []
  union_status : Option String := none
  evidence_text : String := ""
deriving DecidableEq

/-- Outcome of fetching one URL: `.fail` covers non-200 status, transport
errors and task-level exceptions (all of which produce a minimal profile);
`.page` carries the extracted fields of a 200 response. -/
inductive FetchOutcome where
  | fail
  | page (d : PageData)

/-- `SubcontractorExtractor._process_url`: on failure a minimal profile, on
success the profile dict (note `website := url`), with city/state filled from
the address when one was found. -/
def processUrl (fetch : String → FetchOutcome) (now url : String) : Profile :=
  match fetch url with
  | .fail => minimalProfile now url
  | .page d =>
    let profile : Profile :=
      { business_name := d.business_name
        website := url
        email := d.email
        hq_address := d.hq_address
        phone := d.phone
        licensing_text := d.licensing_text
        bond_amount := d.bond_amount
        projects := d.projects
        union_status := d.union_status
        evidence_text := d.evidence_text
        last_checked := now }
    if d.hq_address.getD "" ≠ "" then extractLocationFromAddress profile (d.hq_address.getD "")
    else profile

/-- `SubcontractorExtractor._validate_profile`: truthy `business_name` and
`website`. -/
def validateProfile (p : Profile) : Bool := p.business_name ≠ "" && p.website ≠ ""

/-- `SubcontractorExtractor._generate_cache_key`: `rstrip("/")`, prefix
`http://` when no scheme separator is present. -/
def generateCacheKey (url : String) : String :=
  let normalized : String := ⟨(url.data.reverse.dropWhile (fun c => c == '/')).reverse⟩
  if strContains normalized "://" then normalized else "http://" ++ normalized

/-- `SubcontractorExtractor.extract_profiles`: drop falsy URLs, serve cache
hits first, then process the remaining URLs concurrently (`asyncio.gather`
preserves order); a task exception or a failed validation is replaced by a
minimal profile — never dropped. The cache is read before any processing
starts, so intra-call writes cannot affect this call's reads. -/
def extractProfiles (cache : String → Option Profile) (fetch : String → FetchOutcome)
    (now : String) (urls : List String) : List Profile :=
  let valid_urls := urls.filter (fun u => u ≠ "")
  if valid_urls = [] then []
  else
    let cached_results := valid_urls.filterMap (fun u => cache (generateCacheKey u))
    let urls_to_process := valid_urls.filter (fun u => (cache (generateCacheKey u)).isNone)
    let processed_results := urls_to_process.map (fun u =>
      let result := processUrl fetch now u
      if validateProfile result then result else minimalProfile now u)
    cached_results ++ processed_results

/-- C4 counterexample. The claim reads: every profile in the output of
`extract_profiles` has a non-empty `business_name` and `website`, violators
being absent. In fact a failed URL is *replaced* by a minimal profile that
stays in the output, and for the (truthy) URL `"http://"` that minimal
profile's domain-derived `business_name` is empty: the output is exactly one
profile whose `business_name` is `""`. -/
theorem extract_profiles_keeps_empty_name :
    (extractProfiles (fun _ => none) (fun _ => .fail) "T" ["http://"]).map
        Profile.business_name = [""]
      ∧ (extractProfiles (fun _ => none) (fun _ => .fail) "T" ["http://"]).length = 1 := by
  constructor <;> rfl

/-- C4 amended. Every profile in the output of `extract_profiles` has a
non-empty `website`; a profile that fails the `business_name`/`website`
validation is never a successfully extracted profile — it can only be the
minimal fallback profile of one of the (non-empty) input URLs, whose
`business_name` may be empty. The cache hypothesis records the code invariant
that only validated profiles are ever written to the result cache
(extractor.py line 135). -/
theorem extract_profiles_output_validated (cache : String → Option Profile)
    (fetch : String → FetchOutcome) (now : String) (urls : List String)
    (hcache : ∀ u p, cache u = some p → validateProfile p = true) :
    ∀ p ∈ extractProfiles cache fetch now urls,
      p.website ≠ "" ∧ (validateProfile p = false → ∃ u ∈ urls, u ≠ "" ∧ p = minimalProfile now u) := by
  intro p hp
  unfold extractProfiles at hp
  by_cases hv : (urls.filter (fun u => u ≠ "")) = []
  · simp only [hv, if_pos rfl] at hp
    simp at hp
  · rw [if_neg hv] at hp
    rcases List.mem_append.1 hp with hc | hm
    · rcases List.mem_filterMap.1 hc with ⟨u, _, hu⟩
      have hval := hcache _ _ hu
      have hw : p.website ≠ "" := by
        simp only [validateProfile, Bool.and_eq_true, decide_eq_true_eq] at hval
        exact hval.2
      exact ⟨hw, fun hfalse => absurd hval (by simp [hfalse])⟩
    · rcases List.mem_map.1 hm with ⟨u, hu, hpu⟩
      have humem : u ∈ urls.filter (fun v => v ≠ "") := List.mem_of_mem_filter hu
      have hne : u ≠ "" := by
        have := List.of_mem_filter humem
        simpa using this
      have hurls : u ∈ urls := List.mem_of_mem_filter humem
      by_cases hval : validateProfile (processUrl fetch now u) = true
      · rw [if_pos hval] at hpu
        rw [← hpu]
        have hw : (processUrl fetch now u).website ≠ "" := by
          simp only [validateProfile, Bool.and_eq_true, decide_eq_true_eq] at hval
          exact hval.2
        exact ⟨hw, fun hfalse => absurd hval (by simp [hfalse])⟩
      · rw [if_neg hval] at hpu
        subst hpu
        refine ⟨by simpa [minimalProfile] using hne, fun _ => ⟨u, hurls, hne, rfl⟩⟩

/-- C4 witness: the amended theorem applied at the empty cache, the
always-failing fetch and the single URL `"http://mysite.com"`, whose minimal
profile is the sole output element; its `website` is non-empty. -/
theorem extract_profiles_output_validated_witness :
    (minimalProfile "T" "http://mysite.com").website ≠ "" :=
  (extract_profiles_output_validated (fun _ => none) (fun _ => .fail) "T" ["http://mysite.com"]
    (fun _ _ h => by cases h) (minimalProfile "T" "http://mysite.com")
    (by decide)).1

/-! ## Project history (src/core/project_history.py) -/

/-- Outcome of `_enrich_profile` for one profile under
`asyncio.gather(..., return_exceptions=True)`: either the profile it returned
(enriched, or degraded to `tx = 0` by its own error handling) or a raised
exception. -/
inductive EnrichOutcome where
  | ok (p : Profile)
  | exc

/-- `ProjectHistoryParser.enrich_profiles`. `batch = none` models the critical
`except` around the whole batch (lines 103–107: e.g. the `httpx.AsyncClient`
construction failing): every input profile gets `tx_projects_past_5yrs = 0`
and the whole *unfiltered* input list is returned. `batch = some outcomes` is
the normal path: a per-profile exception degrades that profile to `tx = 0`,
then the result is filtered to profiles with `tx_projects_past_5yrs > 0`. -/
def enrichProfiles (batch : Option (List EnrichOutcome)) (profiles : List Profile) :
    List Profile :=
  if profiles = [] then []
  else
    match batch with
    | none => profiles.map (fun p => { p with tx_projects_past_5yrs := some 0 })
    | some outcomes =>
      let result := (profiles.zip outcomes).map (fun pr =>
        match pr.2 with
        | .exc => { pr.1 with tx_projects_past_5yrs := some 0 }
        | .ok q => q)
      result.filter (fun p => 0 < p.tx_projects_past_5yrs.getD 0)

/-- A profile entering the history stage with previously detected projects. -/
def historyInput : Profile :=
  { business_name := "Acme", website := "http://acme.com", tx_projects_past_5yrs := some 3 }

/-- The same profile as `_enrich_profile` might return it (2 recent in-region
projects detected). -/
def historyEnriched : Profile :=
  { business_name := "Acme", website := "http://acme.com", tx_projects_past_5yrs := some 2 }

/-- C3 counterexample. The claim reads: every profile returned by
`enrich_profiles` has `tx_projects_past_5yrs > 0`. On the batch-failure path
(lines 103–107) the stage instead returns *all* input profiles with
`tx_projects_past_5yrs` set to `0`: for the single input `historyInput` the
returned list contains exactly one profile and its count is `0`. -/
theorem enrich_profiles_batch_failure_keeps_zero :
    (enrichProfiles none [historyInput]).map (fun p => p.tx_projects_past_5yrs) = [some 0]
      ∧ (enrichProfiles none [historyInput]).length = 1 := by
  constructor <;> rfl

/-- C3 amended. On every non-batch-failure run (whatever each per-profile
enrichment returns or raises), every profile in the list `enrich_profiles`
returns has `tx_projects_past_5yrs > 0`; only the batch-level exception
fallback returns profiles with a zero count (unfiltered pass-through). -/
theorem enrich_profiles_filters_positive (outcomes : List EnrichOutcome)
    (profiles : List Profile) :
    ∀ p ∈ enrichProfiles (some outcomes) profiles, 0 < p.tx_projects_past_5yrs.getD 0 := by
  intro p hp
  unfold enrichProfiles at hp
  by_cases h : profiles = []
  · simp [h] at hp
  · rw [if_neg h] at hp
    have := List.of_mem_filter hp
    simpa using this

/-- C3 witness: the amended theorem at one input profile whose enrichment
succeeded with 2 detected projects; the output member has a positive count. -/
theorem enrich_profiles_filters_positive_witness :
    0 < historyEnriched.tx_projects_past_5yrs.getD 0 :=
  enrich_profiles_filters_positive [.ok historyEnriched] [historyInput] historyEnriched
    (by decide)

/-! ## License verifier (src/core/license.py) -/

/-- Python `str.upper()` / `str.lower()` (ASCII, as in the data involved). -/
def pyUpper (s : String) : String := ⟨s.data.map Char.toUpper⟩

/-- Python `str.lower()`. -/
def pyLower (s : String) : String := ⟨s.data.map Char.toLower⟩

/-- A matched registry row as consumed by `_create_verified_response`: the
resolved license-number string, the raw expiration string when an expiration
column exists, and the registry business name. -/
structure RegRow where
  lic_number : String
  expiry_raw : Option String
  business_name : String
deriving DecidableEq

/-- A parsed `datetime.date`: its ordinal (for the `>` comparison against
today) and its `strftime("%Y-%m-%d")` rendering. -/
structure PyDate where
  ordinal : ℤ
  iso : String
deriving DecidableEq

/-- The registry/library environment `LicenseVerifier` runs against:
`dataNone` is the `verify_batch` guard (`license_data is None`), `dataEmpty`
the per-profile guard (`None or empty`); `extractLicense` is the
`_extract_license_number` regex, `exactLookup` the license-number index,
`fuzzyMatch`/`fuzzyAlt` the two `process.extractOne` calls (token-set-ratio
cutoff 85, then partial-ratio cutoff 90) returning `(matched_name, score,
row)`; `parseDate` is `_parse_expiry_date`, `today` the current date ordinal;
`raises p` says whether verifying `p` raises (the per-profile `except`). -/
structure LicEnv where
  dataNone : Bool
  dataEmpty : Bool
  extractLicense : String → Option String
  exactLookup : String → Option RegRow
  fuzzyMatch : String → Option (String × ℤ × RegRow)
  fuzzyAlt : String → Option (String × ℤ × RegRow)
  parseDate : String → Option PyDate
  today : ℤ
  raises : Profile → Bool

/-- The TLD alternatives of `_extract_business_name_from_website`'s regex. -/
def licTldList : List String := ["com", "net", "org", "co", "us", "gov", "info", "biz", "io", "ai"]

/-- `LicenseVerifier._extract_business_name_from_website`: netloc, strip a
leading `www.` and one trailing common TLD, uppercase. -/
def extractBusinessNameFromWebsite (website : String) : String :=
  let domain := urlNetloc website
  pyUpper (stripTld licTldList (stripWww domain))

/-- The no-match result dict of `_verify_profile` (also the per-profile
exception result): `lic_active=False`, `lic_number="Unknown"`, score `0`,
matched name `""` — note no `lic_expiry_date` key. -/
def noMatchResult (p : Profile) : Profile :=
  { p with
    lic_active := some false
    lic_number := some "Unknown"
    lic_match_score := some 0
    lic_matched_name := some "" }

/-- The early-guard result dict of `_verify_profile` (registry empty, or no
usable lookup name): like `noMatchResult` but without `lic_matched_name`. -/
def guardResult (p : Profile) : Profile :=
  { p with lic_active := some false, lic_number := some "Unknown", lic_match_score := some 0 }

/-- `LicenseVerifier._create_verified_response`: resolve the license number
and raw expiry string from the row, parse the expiry if the string is truthy,
set `lic_active` to `expiry_date > today`, format the expiry (or
`"Unknown"`). -/
def createVerifiedResponse (e : LicEnv) (p : Profile) (row : RegRow) (score : ℤ)
    (matchedName : String) : Profile :=
  let expiry_date : Option PyDate :=
    match row.expiry_raw with
    | some s => if s ≠ "" then e.parseDate s else none
    | none => none
  let is_active : Bool :=
    match expiry_date with
    | some d => e.today < d.ordinal
    | none => false
  { p with
    lic_active := some is_active
    lic_number := some row.lic_number
    lic_match_score := some score
    lic_matched_name := some matchedName
    lic_expiry_date := some (match expiry_date with | some d => d.iso | none => "Unknown") }

/-- The fuzzy-matching tail of `_verify_profile`: token-set-ratio first, then
the partial-ratio fallback, else the no-match dict. -/
def verifyFuzzy (e : LicEnv) (p : Profile) (business_name : String) : Profile :=
  match e.fuzzyMatch business_name with
  | some (matched_name, score, row) => createVerifiedResponse e p row score matched_name
  | none =>
    match e.fuzzyAlt business_name with
    | some (matched_name, score, row) => createVerifiedResponse e p row score matched_name
    | none => noMatchResult p

/-- The lookup name `_verify_profile` computes before matching:
`str(business_name).strip().upper()`, falling back to the website-derived name
when that is empty and the (stripped) website is truthy. -/
def lookupName (p : Profile) : String :=
  let business_name := pyUpper (pyStrip p.business_name)
  let website := pyStrip p.website
  if business_name = "" && website ≠ "" then extractBusinessNameFromWebsite website
  else business_name

/-- `LicenseVerifier._verify_profile`: exception → no-match dict; empty
registry → guard dict; lookup name from `business_name` (or the website
domain); no name → guard dict; explicit license number → exact index lookup
(score 100 on hit); otherwise the two fuzzy matchers; no match → no-match
dict. -/
def verifyProfile (e : LicEnv) (p : Profile) : Profile :=
  if e.raises p then noMatchResult p
  else if e.dataEmpty then guardResult p
  else
    if lookupName p = "" then guardResult p
    else
      match e.extractLicense p.licensing_text with
      | some extracted =>
        (match e.exactLookup (pyUpper extracted) with
         | some row => createVerifiedResponse e p row 100 row.business_name
         | none => verifyFuzzy e p (lookupName p))
      | none => verifyFuzzy e p (lookupName p)

/-- `LicenseVerifier.verify_batch`: unchanged pass-through when the registry
was never loaded, otherwise one `_verify_profile` per profile, in order
(`asyncio.gather`). -/
def verifyBatch (e : LicEnv) (profiles : List Profile) : List Profile :=
  if e.dataNone then profiles
  else profiles.map (verifyProfile e)

/-- An environment in which no registry match ever succeeds and nothing
raises. -/
def licEnvNoMatch : LicEnv :=
  { dataNone := false
    dataEmpty := false
    extractLicense := fun _ => none
    exactLookup := fun _ => none
    fuzzyMatch := fun _ => none
    fuzzyAlt := fun _ => none
    parseDate := fun _ => none
    today := 0
    raises := fun _ => false }

/-- C6 counterexample. The claim reads: `verify_batch` augments *every*
profile with `lic_active`, `lic_number`, `lic_match_score` **and**
`lic_expiry_date`. For a profile with no usable lookup name (empty
`business_name` and `website`) the guard path returns a dict without any
`lic_expiry_date` key — the single output profile has `lic_expiry_date =
none` (the key is also absent on the no-match and exception paths). -/
theorem verify_batch_missing_expiry_counterexample :
    (verifyBatch licEnvNoMatch [{}]).map Profile.lic_expiry_date = [none]
      ∧ (verifyBatch licEnvNoMatch [{}]).length = 1 := by
  constructor <;> rfl

/-- The frame/augmentation relation between an output profile of
`verify_batch` and the corresponding input profile: every non-`lic_*` field
is unchanged and the three license fields `lic_active`, `lic_number`,
`lic_match_score` are present. -/
def licFramePreserved (q p : Profile) : Prop :=
  q.business_name = p.business_name ∧ q.website = p.website ∧ q.name = p.name ∧
  q.source_url = p.source_url ∧ q.email = p.email ∧ q.hq_address = p.hq_address ∧
  q.phone = p.phone ∧ q.licensing_text = p.licensing_text ∧ q.license = p.license ∧
  q.bond_amount = p.bond_amount ∧ q.projects = p.projects ∧
  q.union_status = p.union_status ∧ q.evidence_text = p.evidence_text ∧
  q.raw_text = p.raw_text ∧ q.last_checked = p.last_checked ∧ q.city = p.city ∧
  q.state = p.state ∧ q.tx_projects_past_5yrs = p.tx_projects_past_5yrs ∧
  q.tx_older_projects = p.tx_older_projects ∧ q.project_evidence = p.project_evidence ∧
  q.lic_active.isSome = true ∧ q.lic_number.isSome = true ∧ q.lic_match_score.isSome = true

/-- C6 amended. When the registry is loaded (`dataNone = false`, which holds
for every successfully constructed verifier), `verify_batch` returns a list
of the same length in the same order (`Forall₂` pairs output and input
pointwise) in which every field other than the `lic_*` fields keeps its
value and every profile is augmented with `lic_active`, `lic_number` and
`lic_match_score`; `lic_expiry_date` (and `lic_matched_name`) are only added
on the paths that reach a registry match (resp. the matching stage). -/
theorem verify_batch_frame_and_augment (e : LicEnv) (profiles : List Profile)
    (h : e.dataNone = false) :
    List.Forall₂ licFramePreserved (verifyBatch e profiles) profiles := by
  have hResp : ∀ (p : Profile) (row : RegRow) (s : ℤ) (n : String),
      licFramePreserved (createVerifiedResponse e p row s n) p := by
    intro p row s n
    unfold licFramePreserved createVerifiedResponse
    simp
  have hNo : ∀ p : Profile, licFramePreserved (noMatchResult p) p := by
    intro p
    unfold licFramePreserved noMatchResult
    simp
  have hGuard : ∀ p : Profile, licFramePreserved (guardResult p) p := by
    intro p
    unfold licFramePreserved guardResult
    simp
  have hFuzzy : ∀ (p : Profile) (n : String), licFramePreserved (verifyFuzzy e p n) p := by
    intro p n
    unfold verifyFuzzy
    cases hm : e.fuzzyMatch n with
    | some t =>
      obtain ⟨mn, s, row⟩ := t
      exact hResp p row s mn
    | none =>
      cases ha : e.fuzzyAlt n with
      | some t =>
        obtain ⟨mn, s, row⟩ := t
        exact hResp p row s mn
      | none => exact hNo p
  have hper : ∀ p : Profile, licFramePreserved (verifyProfile e p) p := by
    intro p
    unfold verifyProfile
    by_cases hr : e.raises p = true
    · rw [if_pos hr]
      exact hNo p
    · rw [if_neg hr]
      by_cases hd : e.dataEmpty = true
      · rw [if_pos hd]
        exact hGuard p
      · rw [if_neg hd]
        by_cases hb : lookupName p = ""
        · rw [if_pos hb]
          exact hGuard p
        · rw [if_neg hb]
          split
          · split
            · apply hResp
            · apply hFuzzy
          · apply hFuzzy
  rw [verifyBatch, if_neg (by simp [h])]
  exact List.forall₂_map_left_iff.2 (List.forall₂_same.2 fun p _ => hper p)

/-- C6 witness: the amended theorem applied at the no-match environment and
the single input `historyInput`. -/
theorem verify_batch_frame_and_augment_witness :
    List.Forall₂ licFramePreserved (verifyBatch licEnvNoMatch [historyInput]) [historyInput] :=
  verify_batch_frame_and_augment licEnvNoMatch [historyInput] rfl

/-! ## Orchestrator and result formatting (src/api/services/research_service.py) -/

/-- The research request dict as read by the orchestrator
(`request.get(...)` with the defaults used at each site). -/
structure Request where
  trade : String := ""
  city : String := ""
  state : String := ""
  min_bond : ℤ := 0
  keywords : List String := []

/-- `ResearchResult` (models/schemas.py): the flat output record. -/
structure ResearchResult where
  name : String
  website : String
  city : String
  state : String
  lic_active : Bool
  lic_number : String
  bond_amount : ℤ
  tx_projects_past_5yrs : ℤ
  score : ℤ
  evidence_url : String
  evidence_text : String
  last_checked : String
deriving DecidableEq

/-- Python string slicing `s[:n]`. -/
def strTake (s : String) (n : Nat) : String := ⟨s.data.take n⟩

/-- `ResearchOrchestrator._count_tx_projects`: stored count when the key is
present, else the length of the `projects` list. -/
def countTxProjects (p : Profile) : ℤ :=
  match p.tx_projects_past_5yrs with
  | some t => t
  | none => (p.projects.length : ℤ)

/-- `ResearchOrchestrator._get_evidence_text`: the raw-text prefix, then up to
two project-evidence snippets, joined and capped at 500 characters. -/
def getEvidenceText (p : Profile) : String :=
  let evidence := (if p.raw_text ≠ "" then [strTake p.raw_text 300] else [])
    ++ (p.project_evidence.take 2).map (fun t => strTake t 200)
  strTake (String.intercalate " [...] " evidence) 500

/-- `ResearchOrchestrator._parse_bond_amount`: the stored integer bond when
present (`None` stored under the key behaves like an absent key here), else
`min_bond` when the evidence text mentions "bond", else 0. -/
def parseBondAmount (p : Profile) (min_bond : ℤ) : ℤ :=
  match p.bond_amount with
  | some b => b
  | none =>
    if p.evidence_text ≠ "" && strContains (pyLower p.evidence_text) "bond" then min_bond
    else 0

/-- `ResearchOrchestrator._calculate_score`: the 0–100 integer ranking score
(location up to 30, license up to 20, bond up to 30, projects up to 20,
keyword bonus up to 10, total capped at 100). -/
def calculateScoreOrch (p : Profile) (req : Request) : ℤ :=
  let location_score : ℤ :=
    if p.state ≠ "" && req.state ≠ "" && (pyUpper p.state == pyUpper req.state) then
      20 + (if p.city ≠ "" && req.city ≠ "" && (pyLower p.city == pyLower req.city) then 10 else 0)
    else 0
  let license_score : ℤ :=
    if p.lic_active.getD false then 20
    else if (p.lic_number.getD "") ≠ "" && (p.lic_number.getD "") ≠ "Unknown" then 10
    else 0
  let bond_amount := p.bond_amount.getD 0
  let min_bond := req.min_bond
  let bond_score : ℤ :=
    if bond_amount ≠ 0 && min_bond ≠ 0 then
      if bond_amount ≥ min_bond then 30
      else if (bond_amount : ℚ) ≥ (min_bond : ℚ) * 0.5 then 15
      else if bond_amount > 0 then 5
      else 0
    else 0
  let tx_projects := countTxProjects p
  let project_score : ℤ := if tx_projects ≥ 4 then 20 else min 20 (tx_projects * 5)
  let profile_name := if p.business_name ≠ "" then p.business_name else p.name
  let text := pyLower (profile_name ++ " " ++ p.evidence_text)
  let keyword_score : ℤ :=
    min 10 (2 * ((req.keywords.filter (fun k => k ≠ "" && strContains text (pyLower k))).length : ℤ))
  min 100 (location_score + license_score + bond_score + project_score + keyword_score)

/-- `ResearchOrchestrator._format_results`: skip profiles without a website;
map each remaining profile to a `ResearchResult` with the documented fallback
chains (name, city/state from the address tail, license fields, bond, count,
score, evidence). The per-profile `except` can only fire on schema validation,
which the embedded record construction cannot fail. -/
def formatResults (req : Request) (now : String) (profiles : List Profile) :
    List ResearchResult :=
  profiles.filterMap (fun p =>
    if p.website = "" then none
    else
      let name := if p.business_name ≠ "" then p.business_name
        else if p.name ≠ "" then p.name else "Unknown"
      let website := if p.website ≠ "" then p.website else p.source_url
      let location := p.hq_address.getD ""
      let city0 := if p.city ≠ "" then p.city else req.city
      let state0 := if p.state ≠ "" then p.state else req.state
      let cs : String × String :=
        if location ≠ "" && (city0 = "" || state0 = "") then
          let parts := location.splitOn ","
          if parts.length ≥ 2 then
            let city1 := if city0 = "" then pyStrip (parts.getD (parts.length - 2) "") else city0
            let state1 :=
              if state0 = "" then
                match pyWords (pyStrip (parts.getD (parts.length - 1) "")) with
                | [] => state0
                | w :: _ => pyStrip w
              else state0
            (city1, state1)
          else (city0, state0)
        else (city0, state0)
      let lic_active := p.lic_active.getD false
      let lic_number0 := if (p.lic_number.getD "") ≠ "" then p.lic_number.getD ""
        else if p.license ≠ "" then p.license
        else if p.licensing_text ≠ "" then p.licensing_text else "Unknown"
      let bond_amount := parseBondAmount p req.min_bond
      let tx_projects := p.tx_projects_past_5yrs.getD 0
      let score := calculateScoreOrch p req
      let evidence_url := if p.website ≠ "" then p.website else p.source_url
      let evidence_text := getEvidenceText p
      some {
        name := if name ≠ "" then name else "Unknown"
        website := if website ≠ "" then website else ""
        city := cs.1
        state := cs.2
        lic_active := lic_active
        lic_number := if lic_number0 ≠ "" then lic_number0 else "Unknown"
        bond_amount := bond_amount
        tx_projects_past_5yrs := tx_projects
        score := score
        evidence_url := evidence_url
        evidence_text := evidence_text
        last_checked := now })

/-- The comparison of `sorted(results, key=lambda x: x.score, reverse=True)`:
a stable descending sort on the score. -/
def scoreDescLE (a b : ResearchResult) : Bool := decide (b.score ≤ a.score)

/-- The final ranking sort of `execute_research`. -/
def sortByScoreDesc (l : List ResearchResult) : List ResearchResult :=
  l.mergeSort scoreDescLE

/-- The stage oracles `execute_research` sequences: each stage either returns
its list or raises (`.error ()`), matching the per-stage `try/except`
blocks. -/
structure Oracles where
  discover : Except Unit (List CandidateLink)
  extract : List String → Except Unit (List Profile)
  verify : List Profile → Except Unit (List Profile)
  history : List Profile → Except Unit (List Profile)

/-- `ResearchOrchestrator.execute_research`: discovery failure or zero
candidates → `[]`; no usable URLs → `[]`; extraction failure or zero profiles
→ `[]`; verification failure or empty result → continue with the raw
profiles; history failure or empty result → continue with the verified
profiles; then format, and return the score-descending ranking (`[]` when
formatting produced nothing). The outer `except` of the Python code is
unreachable for the embedded (total) formatting stage. -/
def executeResearch (o : Oracles) (req : Request) (now : String) : List ResearchResult :=
  match o.discover with
  | .error _ => []
  | .ok candidates =>
    if candidates = [] then []
    else
      let urls := (candidates.filter (fun c => c.url ≠ "")).map CandidateLink.url
      if urls = [] then []
      else
        match o.extract urls with
        | .error _ => []
        | .ok raw_profiles =>
          if raw_profiles = [] then []
          else
            let verified :=
              match o.verify raw_profiles with
              | .error _ => raw_profiles
              | .ok v => if v = [] then raw_profiles else v
            let enriched :=
              match o.history verified with
              | .error _ => verified
              | .ok l => if l = [] then verified else l
            let results := formatResults req now enriched
            if results = [] then [] else sortByScoreDesc results

theorem scoreDescLE_trans (a b c : ResearchResult) :
    scoreDescLE a b → scoreDescLE b c → scoreDescLE a c := by
  simp only [scoreDescLE, decide_eq_true_eq]
  omega

theorem scoreDescLE_total (a b : ResearchResult) : scoreDescLE a b || scoreDescLE b a := by
  simp only [scoreDescLE, Bool.or_eq_true, decide_eq_true_eq]
  omega

/-- The final ranking sort yields a score-descending list. -/
theorem sortByScoreDesc_pairwise (l : List ResearchResult) :
    (sortByScoreDesc l).Pairwise (fun a b => b.score ≤ a.score) := by
  have h := List.sorted_mergeSort scoreDescLE_trans scoreDescLE_total l
  exact h.imp (fun hab => by simpa [scoreDescLE] using hab)

/-- C7. `execute_research` is a total function of the stage outcomes (no
exception escapes: every stage is wrapped in `try/except` and the embedding
assigns every outcome a value), and its failure policy is exactly: discovery
error or zero candidates → `[]`; extraction error → `[]`; a verification
error behaves identically to verification returning its input unchanged
(pass-through), and likewise for history; and whatever the outcomes, the
returned list is ranked by descending score. -/
theorem execute_research_failure_policy (d : Except Unit (List CandidateLink))
    (ext : List String → Except Unit (List Profile))
    (vf hf : List Profile → Except Unit (List Profile)) (req : Request) (now : String) :
    executeResearch ⟨.error (), ext, vf, hf⟩ req now = []
      ∧ executeResearch ⟨.ok [], ext, vf, hf⟩ req now = []
      ∧ executeResearch ⟨d, fun _ => .error (), vf, hf⟩ req now = []
      ∧ executeResearch ⟨d, ext, fun _ => .error (), hf⟩ req now
          = executeResearch ⟨d, ext, fun l => .ok l, hf⟩ req now
      ∧ executeResearch ⟨d, ext, vf, fun _ => .error ()⟩ req now
          = executeResearch ⟨d, ext, vf, fun l => .ok l⟩ req now
      ∧ (executeResearch ⟨d, ext, vf, hf⟩ req now).Pairwise (fun a b => b.score ≤ a.score) := by
  refine ⟨rfl, rfl, ?_, ?_, ?_, ?_⟩
  · unfold executeResearch
    cases d with
    | error e => rfl
    | ok cands =>
      dsimp only
      split
      · rfl
      · split
        · rfl
        · rfl
  · unfold executeResearch
    cases d with
    | error e => rfl
    | ok cands =>
      dsimp only
      simp only [ite_self]
  · unfold executeResearch
    cases d with
    | error e => rfl
    | ok cands =>
      dsimp only
      simp only [ite_self]
  · unfold executeResearch
    cases d with
    | error e => exact List.Pairwise.nil
    | ok cands =>
      dsimp only
      repeat' split
      all_goals first
        | exact List.Pairwise.nil
        | exact sortByScoreDesc_pairwise _

/-- C10. Every `ResearchResult` produced by `_format_results` has a non-empty
`website`: profiles without a truthy `website` are skipped, and for the rest
the result's `website` is the profile's own (non-empty) `website`. Since the
orchestrator's final output is a sort of `_format_results` output, the
pipeline's final output likewise contains only profiles with a website. -/
theorem format_results_website_nonempty (req : Request) (now : String)
    (profiles : List Profile) :
    ∀ r ∈ formatResults req now profiles, r.website ≠ "" := by
  intro r hr
  rcases List.mem_filterMap.1 hr with ⟨p, _, hp⟩
  by_cases hw : p.website = ""
  · rw [if_pos hw] at hp
    cases hp
  · rw [if_neg hw] at hp
    injection hp with hp2
    subst hp2
    simp [hw]

/-- A profile reaching formatting with a website. -/
def orchProfile : Profile := { business_name := "Acme", website := "http://acme.com" }

/-- The formatted record `_format_results` produces for `orchProfile` under
the empty request. -/
def orchFormatted : ResearchResult :=
  { name := "Acme"
    website := "http://acme.com"
    city := ""
    state := ""
    lic_active := false
    lic_number := "Unknown"
    bond_amount := 0
    tx_projects_past_5yrs := 0
    score := 0
    evidence_url := "http://acme.com"
    evidence_text := ""
    last_checked := "T" }

/-- C10 witness: the theorem applied at the one-profile list containing
`orchProfile`, whose formatted record is the sole output element. -/
theorem format_results_website_nonempty_witness : orchFormatted.website ≠ "" :=
  format_results_website_nonempty {} "T" [orchProfile] orchFormatted (by decide)
